import Mathlib

/-!
Shallow embedding of the instantpick-backend geospatial discovery and
dashboard aggregation routes (src/routes/location.js, src/routes/dashboard.js).

Request bodies are JSON, so numeric fields arrive as rationals wrapped in
`Option` (absent field = `none`); query-string parameters arrive as strings
wrapped in `Option`.  JavaScript truthiness of such values is modelled by
`truthyQ` / `truthyS`.  The document store is modelled as a list of shop
records; its spherical distance and the locally recomputed Haversine distance
are both represented by one abstract distance function `d` passed to each
handler, and the store's geo stages (filter on active/approved, distance
bound, ascending distance sort) are modelled directly on the list.
A handler returns `Except.error msg` when it answers an error response before
any store query, and `Except.ok data` when it issues the store query and
answers the shaped result.
-/

namespace InstantPick

/-- JavaScript truthiness of an optional JSON number: `undefined` and `0` are
falsy, every other number is truthy. -/
def truthyQ : Option ℚ → Bool
  | none => false
  | some x => x != 0

/-- JavaScript truthiness of an optional string: `undefined` and the empty
string are falsy, every other string is truthy. -/
def truthyS : Option String → Bool
  | none => false
  | some s => s != ""

/-- `x || dflt` for an optional JSON number: the default is used when the
value is absent or `0` (both falsy). -/
def jsOrQ : Option ℚ → ℚ → ℚ
  | none, dflt => dflt
  | some x, dflt => if x = 0 then dflt else x

/-- Leading run of decimal digits of a character list, as digit values,
together with the unconsumed rest. -/
def takeDigits : List Char → List ℕ × List Char
  | [] => ([], [])
  | c :: rest =>
    if c.isDigit then
      let (ds, r) := takeDigits rest
      ((c.toNat - 48) :: ds, r)
    else ([], c :: rest)

/-- Value of a digit list read most-significant first. -/
def digitsVal (ds : List ℕ) : ℕ := ds.foldl (fun a d => a * 10 + d) 0

/-- Model of JavaScript `parseFloat` on the decimal strings the routes
receive: an optional sign, integer digits, an optional fractional part; the
longest such leading numeric part is converted and the rest ignored.  `none`
stands for `NaN`. -/
def parseFloatQ (s : String) : Option ℚ :=
  let cs := s.toList
  let signed : ℚ × List Char :=
    match cs with
    | '-' :: r => (-1, r)
    | '+' :: r => (1, r)
    | _ => (1, cs)
  let (ip, rest) := takeDigits signed.2
  let fp : List ℕ :=
    match rest with
    | '.' :: r => (takeDigits r).1
    | _ => []
  if ip.isEmpty && fp.isEmpty then none
  else some (signed.1 * ((digitsVal ip : ℚ) + (digitsVal fp : ℚ) / (10 : ℚ) ^ fp.length))

/-- A geographic coordinate as stored on a shop document. -/
structure Coord where
  lat : ℚ
  lon : ℚ
deriving DecidableEq, Repr

/-- A shop document, restricted to the fields the location routes read. -/
structure Shop where
  sid : ℕ
  location : Coord
  deliveryRadius : ℚ
  isActive : Bool
  isApproved : Bool
deriving DecidableEq, Repr

/-- The `{isActive: true, isApproved: true}` query filter used by every
discovery operation. -/
def activeApproved (s : Shop) : Bool := s.isActive && s.isApproved

/-- Rounding to 2 decimal places, as done by `toFixed(2)` and the `$round`
pipeline stage on the non-negative distances produced here. -/
def round2 (x : ℚ) : ℚ := ((round (x * 100) : ℤ) : ℚ) / 100

/-- The store's `$near` query: active/approved shops within `maxKm` of the
origin, sorted by distance ascending. -/
def findNear (d : Coord → Coord → ℚ) (origin : Coord) (maxKm : ℚ)
    (shops : List Shop) : List Shop :=
  ((shops.filter activeApproved).filter fun s => decide (d origin s.location ≤ maxKm)).mergeSort
    fun a b => decide (d origin a.location ≤ d origin b.location)

/-- A shop as shaped by the nearby route: the document plus the rounded
`distance` field and the informational `withinDeliveryRadius` flag. -/
structure NearbyResult where
  shop : Shop
  distance : ℚ
  withinDeliveryRadius : Bool
deriving DecidableEq, Repr

/-- A shop as shaped by the deliverable and radius routes after `$project`:
the document plus the rounded `distance` field. -/
structure GeoResult where
  shop : Shop
  distance : ℚ
deriving DecidableEq, Repr

/-- The body of the nearby route after the store query: each candidate mapped
to its document plus the locally recomputed distance, rounded for the
`distance` field and unrounded for the `withinDeliveryRadius` flag. -/
def nearbyResults (d : Coord → Coord → ℚ) (origin : Coord) (maxDistanceKm : ℚ)
    (shops : List Shop) : List NearbyResult :=
  (findNear d origin maxDistanceKm shops).map fun s =>
    { shop := s
      distance := round2 (d origin s.location)
      withinDeliveryRadius := decide (d origin s.location ≤ s.deliveryRadius) }

/-- POST /shops/nearby: presence check by truthiness, `maxDistance || 10`,
bounded `$near` store query, then per-candidate local distance recomputation,
2-decimal rounding, and the `withinDeliveryRadius` flag from the unrounded
distance.  No re-sort and no delivery-radius filter happen here. -/
def nearbyShops (d : Coord → Coord → ℚ) (latitude longitude maxDistance : Option ℚ)
    (shops : List Shop) : Except String (List NearbyResult) :=
  if !truthyQ latitude || !truthyQ longitude then
    .error "Latitude and longitude are required"
  else
    .ok (nearbyResults d ⟨latitude.getD 0, longitude.getD 0⟩ (jsOrQ maxDistance 10) shops)

/-- The `$geoNear` stage of the deliverable route: every active/approved shop
paired with its distance from the origin, sorted by distance ascending, with
no distance cap. -/
def geoNearAll (d : Coord → Coord → ℚ) (origin : Coord)
    (shops : List Shop) : List (Shop × ℚ) :=
  ((shops.filter activeApproved).map fun s => (s, d origin s.location)).mergeSort
    fun a b => decide (a.2 ≤ b.2)

/-- The aggregation pipeline of the deliverable route: unbounded `$geoNear`,
`$addFields withinDeliveryRadius = distance <= deliveryRadius`, `$match` on
that flag, `$project` rounding the distance to 2 decimals, and a final
`$sort` ascending on the projected distance. -/
def deliverablePipeline (d : Coord → Coord → ℚ) (origin : Coord)
    (shops : List Shop) : List GeoResult :=
  let near := geoNearAll d origin shops
  let flagged := near.map fun p => (p.1, p.2, decide (p.2 ≤ p.1.deliveryRadius))
  let matched := flagged.filter fun t => t.2.2
  let projected := matched.map fun t => ({ shop := t.1, distance := round2 t.2.1 } : GeoResult)
  projected.mergeSort fun a b => decide (a.distance ≤ b.distance)

/-- POST /shops/deliverable: the presence check, then the aggregation
pipeline. -/
def deliverableShops (d : Coord → Coord → ℚ) (latitude longitude : Option ℚ)
    (shops : List Shop) : Except String (List GeoResult) :=
  if !truthyQ latitude || !truthyQ longitude then
    .error "Latitude and longitude are required"
  else
    .ok (deliverablePipeline d ⟨latitude.getD 0, longitude.getD 0⟩ shops)

/-- The aggregation pipeline of the radius route: bounded `$geoNear` with
`maxDistance = searchRadius`, `$project` rounding the distance, `$sort`
ascending on the projected distance. -/
def radiusPipeline (d : Coord → Coord → ℚ) (origin : Coord) (searchRadius : ℚ)
    (shops : List Shop) : List GeoResult :=
  let near := geoNearAll d origin shops
  let bounded := near.filter fun p => decide (p.2 ≤ searchRadius)
  let projected := bounded.map fun p => ({ shop := p.1, distance := round2 p.2 } : GeoResult)
  projected.mergeSort fun a b => decide (a.distance ≤ b.distance)

/-- GET /shops/radius: query-string parameters are strings, presence is
truthiness of the raw string, `parseFloat(radius) || 5` supplies the search
radius, and the coordinates go through `parseFloat`; a `NaN` coordinate makes
the store query itself fail, surfaced as the catch-all server error. -/
def radiusShops (d : Coord → Coord → ℚ) (latitude longitude radius : Option String)
    (shops : List Shop) : Except String (List GeoResult) :=
  if !truthyS latitude || !truthyS longitude then
    .error "Latitude and longitude are required"
  else
    let searchRadius := jsOrQ (parseFloatQ (radius.getD "")) 5
    match parseFloatQ (latitude.getD ""), parseFloatQ (longitude.getD "") with
    | some lat, some lon => .ok (radiusPipeline d ⟨lat, lon⟩ searchRadius shops)
    | _, _ => .error "Server error"

/-- POST /shop/location: the validation phase of the location-save route, in
source order — truthiness presence check on all four fields, coordinate range
check, delivery radius range check.  `ok` means the handler proceeds to the
store update. -/
def shopLocationSave (shopId : Option String)
    (latitude longitude deliveryRadius : Option ℚ) : Except String Unit :=
  if !truthyS shopId || !truthyQ latitude || !truthyQ longitude || !truthyQ deliveryRadius then
    .error "Missing required fields"
  else
    let lat := latitude.getD 0
    let lon := longitude.getD 0
    let r := deliveryRadius.getD 0
    if lat < -90 || 90 < lat || lon < -180 || 180 < lon then
      .error "Invalid coordinates"
    else if r < 0 || 50 < r then
      .error "Delivery radius must be between 0 and 50 km"
    else
      .ok ()

/-- An order document, restricted to the fields the dashboard routes read.
`createdAt` is a UTC epoch timestamp in milliseconds. -/
structure Order where
  orderShopId : ℕ
  status : String
  createdAt : ℕ
  totalAmount : ℚ
deriving DecidableEq, Repr

/-- A product document, restricted to the fields the dashboard routes read. -/
structure Product where
  productShopId : ℕ
  category : String
  isAvailable : Bool
deriving DecidableEq, Repr

/-- The shop document fields the summary route selects. -/
structure ShopDoc where
  sid : ℕ
  name : String
  isOpen : Bool
  isActive : Bool
  totalOrders : ℕ
  totalRevenue : Option ℚ
deriving DecidableEq, Repr

/-- The data object of a successful summary response. -/
structure SummaryData where
  productsTotal : ℕ
  productsAvailable : ℕ
  productsUnavailable : ℤ
  ordersTotal : ℕ
  ordersPending : ℕ
  ordersAccepted : ℕ
  ordersCompleted : ℕ
  revenueTotal : ℚ
  revenueToday : ℚ
  todayOrders : ℕ
deriving DecidableEq, Repr

/-- `Product.countDocuments({shopId})`. -/
def qProductsTotal (products : List Product) (sid : ℕ) : Except String ℕ :=
  .ok (products.filter (fun p => p.productShopId == sid)).length

/-- `Product.countDocuments({shopId, isAvailable: true})`. -/
def qProductsAvailable (products : List Product) (sid : ℕ) : Except String ℕ :=
  .ok (products.filter (fun p => p.productShopId == sid && p.isAvailable)).length

/-- `Order.countDocuments({shopId})`. -/
def qOrdersTotal (orders : List Order) (sid : ℕ) : Except String ℕ :=
  .ok (orders.filter (fun o => o.orderShopId == sid)).length

/-- `Order.countDocuments({shopId, status})`. -/
def qOrdersStatus (orders : List Order) (sid : ℕ) (st : String) : Except String ℕ :=
  .ok (orders.filter (fun o => o.orderShopId == sid && o.status == st)).length

/-- The today-revenue aggregate: `$match` on shop, `Completed` status and
`createdAt >= todayStart`, then one `$group` summing `totalAmount`; an empty
match produces no group at all, hence an empty result list. -/
def qTodayRevenue (orders : List Order) (sid : ℕ) (todayStart : ℕ) :
    Except String (List ℚ) :=
  let m := orders.filter fun o =>
    o.orderShopId == sid && (o.status == "Completed" && decide (todayStart ≤ o.createdAt))
  .ok (if m.isEmpty then [] else [(m.map Order.totalAmount).sum])

/-- `Order.countDocuments({shopId, createdAt >= todayStart})` — note: every
status counts here, not only completed orders. -/
def qTodayOrders (orders : List Order) (sid : ℕ) (todayStart : ℕ) : Except String ℕ :=
  .ok (orders.filter (fun o => o.orderShopId == sid && decide (todayStart ≤ o.createdAt))).length

/-- The `Promise.all` join of the eight summary sub-queries and the shaping of
the response data: if every sub-query succeeded the merged summary is built,
otherwise the whole operation fails with the error of a failed sub-query and
returns no data at all. -/
def shopSummaryRun (shop : ShopDoc)
    (q1 q2 q3 q4 q5 q6 : Except String ℕ) (q7 : Except String (List ℚ))
    (q8 : Except String ℕ) : Except String SummaryData :=
  match q1 with
  | .error e => .error e
  | .ok tp =>
  match q2 with
  | .error e => .error e
  | .ok ap =>
  match q3 with
  | .error e => .error e
  | .ok tod =>
  match q4 with
  | .error e => .error e
  | .ok po =>
  match q5 with
  | .error e => .error e
  | .ok ao =>
  match q6 with
  | .error e => .error e
  | .ok co =>
  match q7 with
  | .error e => .error e
  | .ok tr =>
  match q8 with
  | .error e => .error e
  | .ok td =>
    .ok { productsTotal := tp
          productsAvailable := ap
          productsUnavailable := (tp : ℤ) - (ap : ℤ)
          ordersTotal := tod
          ordersPending := po
          ordersAccepted := ao
          ordersCompleted := co
          revenueTotal := jsOrQ shop.totalRevenue 0
          revenueToday := tr.headD 0
          todayOrders := td }

/-- GET /summary/:ownerId after the shop lookup: the eight concurrent
sub-queries evaluated against the store's data, joined by `shopSummaryRun`. -/
def shopSummary (shop : ShopDoc) (products : List Product) (orders : List Order)
    (todayStart : ℕ) : Except String SummaryData :=
  shopSummaryRun shop
    (qProductsTotal products shop.sid)
    (qProductsAvailable products shop.sid)
    (qOrdersTotal orders shop.sid)
    (qOrdersStatus orders shop.sid "Pending")
    (qOrdersStatus orders shop.sid "Accepted")
    (qOrdersStatus orders shop.sid "Completed")
    (qTodayRevenue orders shop.sid todayStart)
    (qTodayOrders orders shop.sid todayStart)

/-- The `$dateToString '%Y-%m-%d'` grouping key: the UTC calendar day of a
millisecond timestamp (day keys compare like the date strings they format). -/
def dayKey (t : ℕ) : ℕ := t / 86400000

/-- One bucket of the daily-stats aggregate: day key, order count, revenue. -/
structure DailyBucket where
  key : ℕ
  orders : ℕ
  revenue : ℚ
deriving DecidableEq, Repr

/-- One bucket of the category aggregate: category name and product count. -/
structure CatBucket where
  key : String
  count : ℕ
deriving DecidableEq, Repr

/-- The orders matched by the daily-stats `$match` stage: this shop's orders
with `Completed` status created at or after the window cutoff. -/
def statsMatched (sid : ℕ) (cutoff : ℕ) (orders : List Order) : List Order :=
  orders.filter fun o =>
    o.orderShopId == sid && (o.status == "Completed" && decide (cutoff ≤ o.createdAt))

/-- The daily aggregate of GET /stats/:shopId: match completed orders inside
the trailing window, group them by calendar day with an order count and a
revenue sum per day, and sort the buckets ascending by day key. -/
def dailyStats (sid : ℕ) (cutoff : ℕ) (orders : List Order) : List DailyBucket :=
  let matched := statsMatched sid cutoff orders
  let keys := ((matched.map fun o => dayKey o.createdAt).dedup).mergeSort
    fun a b => decide (a ≤ b)
  keys.map fun k =>
    let grp := matched.filter fun o => dayKey o.createdAt == k
    { key := k, orders := grp.length, revenue := (grp.map Order.totalAmount).sum }

/-- The category aggregate of GET /stats/:shopId: this shop's products
grouped by category with a count per category. -/
def categoryStats (sid : ℕ) (products : List Product) : List CatBucket :=
  let m := products.filter fun p => p.productShopId == sid
  ((m.map Product.category).dedup).map fun c =>
    { key := c, count := (m.filter fun p => p.category == c).length }

/-- The merged payload of GET /stats/:shopId. -/
structure StatsPayload where
  daily : List DailyBucket
  categories : List CatBucket
deriving DecidableEq, Repr

/-- GET /stats/:shopId: the two concurrent aggregates merged into one
payload. -/
def statsHandler (sid : ℕ) (cutoff : ℕ) (orders : List Order)
    (products : List Product) : StatsPayload :=
  { daily := dailyStats sid cutoff orders
    categories := categoryStats sid products }

/-- `toRad` of location.js: degrees to radians. -/
noncomputable def toRad (degrees : ℝ) : ℝ := degrees * (Real.pi / 180)

/-- Model of JavaScript `Math.atan2` on real numbers, by quadrant. -/
noncomputable def atan2 (y x : ℝ) : ℝ :=
  if 0 < x then Real.arctan (y / x)
  else if x = 0 then
    if 0 < y then Real.pi / 2 else if y < 0 then -(Real.pi / 2) else 0
  else if 0 ≤ y then Real.arctan (y / x) + Real.pi
  else Real.arctan (y / x) - Real.pi

/-- `calculateDistance` of location.js: Haversine great-circle distance with
Earth radius 6371 km, over real numbers. -/
noncomputable def calculateDistance (lat1 lon1 lat2 lon2 : ℝ) : ℝ :=
  let R : ℝ := 6371
  let dLat := toRad (lat2 - lat1)
  let dLon := toRad (lon2 - lon1)
  let a :=
    Real.sin (dLat / 2) * Real.sin (dLat / 2) +
    Real.cos (toRad lat1) * Real.cos (toRad lat2) *
    Real.sin (dLon / 2) * Real.sin (dLon / 2)
  let c := 2 * atan2 (Real.sqrt a) (Real.sqrt (1 - a))
  R * c

/-- A coordinate pair is valid when both components are inside the
geographic bounds. -/
def validCoordR (lat lon : ℝ) : Prop :=
  -90 ≤ lat ∧ lat ≤ 90 ∧ -180 ≤ lon ∧ lon ≤ 180

/-! Helper lemmas shared by the claim theorems. -/

theorem round2_mono {x y : ℚ} (h : x ≤ y) : round2 x ≤ round2 y := by
  unfold round2
  have hr : round (x * 100) ≤ round (y * 100) := by
    rw [round_eq, round_eq]
    exact Int.floor_mono (by linarith)
  have hc : ((round (x * 100) : ℤ) : ℚ) ≤ ((round (y * 100) : ℤ) : ℚ) := by exact_mod_cast hr
  linarith

theorem pairwise_mergeSort_key {α : Type*} {β : Type*} [LinearOrder β] (f : α → β)
    (l : List α) :
    (l.mergeSort fun a b => decide (f a ≤ f b)).Pairwise fun a b => f a ≤ f b := by
  have h := @List.sorted_mergeSort _ (fun a b => decide (f a ≤ f b))
    (fun a b c hab hbc => by
      simp only [decide_eq_true_eq] at hab hbc ⊢
      exact le_trans hab hbc)
    (fun a b => by
      simp only [Bool.or_eq_true, decide_eq_true_eq]
      exact le_total (f a) (f b)) l
  exact h.imp fun hab => of_decide_eq_true hab

theorem filter_and_eq_nil {α : Type*} (l : List α) (p q : α → Bool)
    (h : l.filter p = []) : l.filter (fun x => p x && q x) = [] := by
  rw [List.filter_eq_nil_iff] at h ⊢
  intro a ha hpq
  rw [Bool.and_eq_true] at hpq
  exact h a ha hpq.1

/-- C9 counterexample: the radius operation reads query-string values, and the
string "0" is truthy, so latitude 0 and longitude 0 are not rejected there —
the store query is issued and an ok response returned. -/
theorem C9_counterexample_radius_accepts_zero :
    radiusShops (fun _ _ => 0) (some "0") (some "0") none [] = Except.ok [] := by
  have h0 : parseFloatQ "0" = some 0 := by simp +decide [parseFloatQ, takeDigits, digitsVal]
  have he : parseFloatQ "" = none := by rfl
  simp [radiusShops, radiusPipeline, truthyS, h0, he, geoNearAll, jsOrQ, List.mergeSort_nil]

/-- C9 amended: for the two JSON-body operations (nearby, deliverable) a
latitude or longitude equal to the number 0 is falsy and rejected with
'Latitude and longitude are required'; the radius operation reads strings,
where "0" is truthy, so it proceeds to the store query instead. -/
theorem C9_zero_presence_amended :
    ∀ (d : Coord → Coord → ℚ) (shops : List Shop) (v md : Option ℚ) (r : Option String),
      nearbyShops d (some 0) v md shops = Except.error "Latitude and longitude are required" ∧
      nearbyShops d v (some 0) md shops = Except.error "Latitude and longitude are required" ∧
      deliverableShops d (some 0) v shops = Except.error "Latitude and longitude are required" ∧
      deliverableShops d v (some 0) shops = Except.error "Latitude and longitude are required" ∧
      (radiusShops d (some "0") (some "0") r shops).isOk = true := by
  intro d shops v md r
  have h0 : parseFloatQ "0" = some 0 := by simp +decide [parseFloatQ, takeDigits, digitsVal]
  refine ⟨?_, ?_, ?_, ?_, ?_⟩
  · simp [nearbyShops, truthyQ]
  · simp [nearbyShops, truthyQ]
  · simp [deliverableShops, truthyQ]
  · simp [deliverableShops, truthyQ]
  · simp [radiusShops, truthyS, h0, Except.isOk, Except.toBool]

/-- C2 counterexample: latitude 95 / longitude -200 is out of range but
truthy, so all three discovery operations pass validation and issue the store
query, answering a success envelope instead of an InvalidInput failure. -/
theorem C2_counterexample_out_of_range_not_rejected :
    nearbyShops (fun _ _ => 0) (some 95) (some (-200)) none [] = Except.ok [] ∧
    deliverableShops (fun _ _ => 0) (some 95) (some (-200)) [] = Except.ok [] ∧
    radiusShops (fun _ _ => 0) (some "95") (some "-200") none [] = Except.ok [] := by
  have h95 : parseFloatQ "95" = some 95 := by simp +decide [parseFloatQ, takeDigits, digitsVal]
  have h200 : parseFloatQ "-200" = some (-200) := by
    simp +decide [parseFloatQ, takeDigits, digitsVal]
  have he : parseFloatQ "" = none := by rfl
  refine ⟨?_, ?_, ?_⟩
  · simp +decide [nearbyShops, nearbyResults, truthyQ, findNear, List.mergeSort_nil]
  · simp +decide [deliverableShops, deliverablePipeline, truthyQ, geoNearAll, List.mergeSort_nil]
  · simp +decide [radiusShops, radiusPipeline, truthyS, h95, h200, he, geoNearAll, List.mergeSort_nil]

/-- C2 amended: the discovery operations validate only presence by JavaScript
truthiness; any present (and, for the radius route, parseable) coordinates —
out-of-range ones included — reach the store query, which is issued and
answered with a success envelope; no coordinate-range check runs before it. -/
theorem C2_amended_no_range_validation (d : Coord → Coord → ℚ) (shops : List Shop)
    (lat lon : Option ℚ) (md : Option ℚ) (slat slon r : Option String)
    (hlat : truthyQ lat = true) (hlon : truthyQ lon = true)
    (hslat : truthyS slat = true) (hslon : truthyS slon = true)
    (hplat : (parseFloatQ (slat.getD "")).isSome = true)
    (hplon : (parseFloatQ (slon.getD "")).isSome = true) :
    (nearbyShops d lat lon md shops).isOk = true ∧
    (deliverableShops d lat lon shops).isOk = true ∧
    (radiusShops d slat slon r shops).isOk = true := by
  obtain ⟨la, hla⟩ := Option.isSome_iff_exists.mp hplat
  obtain ⟨lo, hlo⟩ := Option.isSome_iff_exists.mp hplon
  refine ⟨?_, ?_, ?_⟩
  · simp [nearbyShops, hlat, hlon, Except.isOk, Except.toBool]
  · simp [deliverableShops, hlat, hlon, Except.isOk, Except.toBool]
  · simp [radiusShops, hslat, hslon, hla, hlo, Except.isOk, Except.toBool]

/-- C2 witness: the amended theorem applied at latitude 95, longitude -200. -/
theorem C2_amended_witness :
    (nearbyShops (fun _ _ => 0) (some 95) (some (-200)) none []).isOk = true ∧
    (deliverableShops (fun _ _ => 0) (some 95) (some (-200)) []).isOk = true ∧
    (radiusShops (fun _ _ => 0) (some "95") (some "-200") none []).isOk = true :=
  C2_amended_no_range_validation (fun _ _ => 0) [] (some 95) (some (-200)) none
    (some "95") (some "-200") none (by decide) (by decide) (by decide) (by decide)
    (by simp +decide [parseFloatQ, takeDigits, digitsVal])
    (by simp +decide [parseFloatQ, takeDigits, digitsVal])

/-- C5 counterexample: a delivery radius of exactly 0 km is falsy, so the
location-save operation rejects it as a missing field even though the claim
says every value in the closed interval from 0 to 50 is accepted. -/
theorem C5_counterexample_zero_radius_rejected :
    shopLocationSave (some "s1") (some 10) (some 20) (some 0) =
      Except.error "Missing required fields" := by
  simp +decide [shopLocationSave, truthyS, truthyQ]

/-- C5 amended: with a truthy shop id and truthy in-range coordinates, the
location-save validation succeeds iff the radius lies in the half-open
interval 0 < km <= 50: km = 0 is falsy and fails the presence check as
'Missing required fields', while km < 0 and km > 50 fail the range check. -/
theorem C5_amended_radius_validation (sid : Option String) (lat lon : Option ℚ) (r : ℚ)
    (hsid : truthyS sid = true) (hlat : truthyQ lat = true) (hlon : truthyQ lon = true)
    (hlat1 : -90 ≤ lat.getD 0) (hlat2 : lat.getD 0 ≤ 90)
    (hlon1 : -180 ≤ lon.getD 0) (hlon2 : lon.getD 0 ≤ 180) :
    (shopLocationSave sid lat lon (some r) = Except.ok () ↔ 0 < r ∧ r ≤ 50) ∧
    shopLocationSave sid lat lon (some 0) = Except.error "Missing required fields" := by
  constructor
  · unfold shopLocationSave
    rw [hsid, hlat, hlon]
    simp only [truthyQ, Bool.not_true, Bool.false_or, Option.getD_some]
    by_cases hr0 : r = 0
    · subst hr0
      norm_num
      simp
    · have hb : (r != 0) = true := by simpa using hr0
      rw [hb]
      simp only [Bool.not_true, Bool.or_false, if_false]
      have hc : (decide (lat.getD 0 < -90) || decide (90 < lat.getD 0) ||
          decide (lon.getD 0 < -180) || decide (180 < lon.getD 0)) = false := by
        simp only [Bool.or_eq_false_iff, decide_eq_false_iff_not, not_lt]
        exact ⟨⟨⟨hlat1, hlat2⟩, hlon1⟩, hlon2⟩
      rw [hc]
      simp only [Bool.false_eq_true, if_false]
      split_ifs with h
      · simp only [Bool.or_eq_true, decide_eq_true_eq] at h
        constructor
        · intro he
          exact absurd he (by simp)
        · rintro ⟨ha, hb2⟩
          rcases h with h | h
          · exact absurd ha (by linarith)
          · exact absurd hb2 (by linarith)
      · simp only [Bool.or_eq_true, decide_eq_true_eq, not_or, not_lt] at h
        constructor
        · intro _
          exact ⟨lt_of_le_of_ne h.1 (Ne.symm hr0), h.2⟩
        · intro _
          rfl
  · unfold shopLocationSave
    simp [truthyQ]

/-- C5 witness: the amended theorem applied at shop "s1", coordinates
(10, 20), showing radius 25 accepted and radius 0 rejected as missing. -/
theorem C5_amended_witness :
    (shopLocationSave (some "s1") (some 10) (some 20) (some 25) = Except.ok () ↔
      (0 : ℚ) < 25 ∧ (25 : ℚ) ≤ 50) ∧
    shopLocationSave (some "s1") (some 10) (some 20) (some 0) =
      Except.error "Missing required fields" :=
  C5_amended_radius_validation (some "s1") (some 10) (some 20) 25
    (by decide) (by decide) (by decide)
    (by norm_num) (by norm_num) (by norm_num) (by norm_num)

theorem mem_geoNearAll {d : Coord → Coord → ℚ} {origin : Coord} {shops : List Shop}
    {p : Shop × ℚ} :
    p ∈ geoNearAll d origin shops ↔
      p.1 ∈ shops ∧ activeApproved p.1 = true ∧ p.2 = d origin p.1.location := by
  unfold geoNearAll
  rw [List.mem_mergeSort]
  constructor
  · intro h
    simp only [List.mem_map, List.mem_filter] at h
    obtain ⟨s, ⟨hs, ha⟩, he⟩ := h
    cases he
    exact ⟨hs, ha, rfl⟩
  · rintro ⟨h1, h2, h3⟩
    simp only [List.mem_map, List.mem_filter]
    exact ⟨p.1, ⟨h1, h2⟩, Prod.ext_iff.mpr ⟨rfl, h3.symm⟩⟩

theorem mem_findNear {d : Coord → Coord → ℚ} {origin : Coord} {maxKm : ℚ}
    {shops : List Shop} {s : Shop} :
    s ∈ findNear d origin maxKm shops ↔
      s ∈ shops ∧ activeApproved s = true ∧ d origin s.location ≤ maxKm := by
  unfold findNear
  rw [List.mem_mergeSort]
  simp only [List.mem_filter, decide_eq_true_eq, and_assoc]

theorem mem_deliverablePipeline {d : Coord → Coord → ℚ} {origin : Coord}
    {shops : List Shop} {r : GeoResult} :
    r ∈ deliverablePipeline d origin shops ↔
      ∃ s ∈ shops, activeApproved s = true ∧ d origin s.location ≤ s.deliveryRadius ∧
        r = { shop := s, distance := round2 (d origin s.location) } := by
  unfold deliverablePipeline
  rw [List.mem_mergeSort]
  simp only [List.mem_map, List.mem_filter]
  constructor
  · rintro ⟨t, ⟨⟨p, hp, hpt⟩, hflag⟩, hrt⟩
    rw [mem_geoNearAll] at hp
    obtain ⟨hs, ha, hd⟩ := hp
    cases hpt
    simp only [decide_eq_true_eq] at hflag
    refine ⟨p.1, hs, ha, hd ▸ hflag, ?_⟩
    rw [← hrt, hd]
  · rintro ⟨s, hs, ha, hd, hr⟩
    refine ⟨(s, d origin s.location, decide (d origin s.location ≤ s.deliveryRadius)),
      ⟨⟨(s, d origin s.location), mem_geoNearAll.mpr ⟨hs, ha, rfl⟩, rfl⟩, ?_⟩, ?_⟩
    · simpa using hd
    · rw [hr]

theorem sorted_deliverablePipeline (d : Coord → Coord → ℚ) (origin : Coord)
    (shops : List Shop) :
    (deliverablePipeline d origin shops).Pairwise fun a b => a.distance ≤ b.distance := by
  unfold deliverablePipeline
  exact pairwise_mergeSort_key GeoResult.distance _

theorem sorted_nearbyResults (d : Coord → Coord → ℚ) (origin : Coord)
    (maxKm : ℚ) (shops : List Shop) :
    (nearbyResults d origin maxKm shops).Pairwise fun a b => a.distance ≤ b.distance := by
  unfold nearbyResults findNear
  rw [List.pairwise_map]
  have h := pairwise_mergeSort_key (fun s => d origin s.location)
    ((shops.filter activeApproved).filter fun s => decide (d origin s.location ≤ maxKm))
  exact h.imp fun hab => round2_mono hab

/-- C1: every shop the deliverable operation returns satisfies its own
delivery-radius bound at the true distance, every active/approved shop
satisfying the bound is present, the reported distance is the 2-decimal
rounding of the true distance, and the results are sorted ascending by that
rounded distance. -/
theorem C1_deliverable_admission_complete_sorted
    (d : Coord → Coord → ℚ) (lat lon : ℚ) (shops : List Shop)
    (hlat : lat ≠ 0) (hlon : lon ≠ 0) :
    ∃ l, deliverableShops d (some lat) (some lon) shops = Except.ok l ∧
      (∀ r ∈ l, r.shop ∈ shops ∧ activeApproved r.shop = true ∧
        d ⟨lat, lon⟩ r.shop.location ≤ r.shop.deliveryRadius ∧
        r.distance = round2 (d ⟨lat, lon⟩ r.shop.location)) ∧
      (∀ s ∈ shops, activeApproved s = true →
        d ⟨lat, lon⟩ s.location ≤ s.deliveryRadius → ∃ r ∈ l, r.shop = s) ∧
      l.Pairwise fun a b => a.distance ≤ b.distance := by
  have htl : truthyQ (some lat) = true := by simpa [truthyQ] using hlat
  have hto : truthyQ (some lon) = true := by simpa [truthyQ] using hlon
  refine ⟨deliverablePipeline d ⟨lat, lon⟩ shops, ?_, ?_, ?_, ?_⟩
  · unfold deliverableShops
    rw [htl, hto]
    simp
  · intro r hr
    rw [mem_deliverablePipeline] at hr
    obtain ⟨s, hs, ha, hd, he⟩ := hr
    subst he
    exact ⟨hs, ha, hd, rfl⟩
  · intro s hs ha hd
    exact ⟨{ shop := s, distance := round2 (d ⟨lat, lon⟩ s.location) },
      mem_deliverablePipeline.mpr ⟨s, hs, ha, hd, rfl⟩, rfl⟩
  · exact sorted_deliverablePipeline d ⟨lat, lon⟩ shops

/-- A concrete shop used by the witnesses below. -/
def shopA : Shop :=
  { sid := 1, location := { lat := 10, lon := 20 }, deliveryRadius := 5,
    isActive := true, isApproved := true }

/-- C1 witness: the theorem applied at a constant distance function of 3 km
and a single active approved shop with delivery radius 5. -/
theorem C1_witness :
    ∃ l, deliverableShops (fun _ _ => 3) (some 1) (some 2) [shopA] = Except.ok l ∧
      (∀ r ∈ l, r.shop ∈ [shopA] ∧ activeApproved r.shop = true ∧
        (3 : ℚ) ≤ r.shop.deliveryRadius ∧ r.distance = round2 3) ∧
      (∀ s ∈ [shopA], activeApproved s = true →
        (3 : ℚ) ≤ s.deliveryRadius → ∃ r ∈ l, r.shop = s) ∧
      l.Pairwise fun a b => a.distance ≤ b.distance :=
  C1_deliverable_admission_complete_sorted (fun _ _ => 3) 1 2 [shopA]
    (by norm_num) (by norm_num)

/-- C3: every shop the nearby operation returns lies within the effective
search radius (the caller's value, or 10 km through `maxDistance || 10` when
it is absent), results are sorted non-decreasing by the reported distance,
and omitting the radius gives exactly the same response as passing 10. -/
theorem C3_nearby_radius_sorted_default
    (d : Coord → Coord → ℚ) (lat lon : ℚ) (md : Option ℚ) (shops : List Shop)
    (hlat : lat ≠ 0) (hlon : lon ≠ 0) :
    ∃ l, nearbyShops d (some lat) (some lon) md shops = Except.ok l ∧
      (∀ r ∈ l, d ⟨lat, lon⟩ r.shop.location ≤ jsOrQ md 10) ∧
      l.Pairwise (fun a b => a.distance ≤ b.distance) ∧
      nearbyShops d (some lat) (some lon) none shops =
        nearbyShops d (some lat) (some lon) (some 10) shops := by
  have htl : truthyQ (some lat) = true := by simpa [truthyQ] using hlat
  have hto : truthyQ (some lon) = true := by simpa [truthyQ] using hlon
  refine ⟨nearbyResults d ⟨lat, lon⟩ (jsOrQ md 10) shops, ?_, ?_, ?_, ?_⟩
  · unfold nearbyShops
    rw [htl, hto]
    simp
  · intro r hr
    unfold nearbyResults at hr
    rw [List.mem_map] at hr
    obtain ⟨s, hs, he⟩ := hr
    rw [mem_findNear] at hs
    subst he
    exact hs.2.2
  · exact sorted_nearbyResults d ⟨lat, lon⟩ (jsOrQ md 10) shops
  · unfold nearbyShops
    norm_num [jsOrQ]

/-- C3 witness: the theorem applied at a constant distance of 3 km with the
radius argument absent, so the 10 km default governs admission. -/
theorem C3_witness :
    ∃ l, nearbyShops (fun _ _ => 3) (some 1) (some 2) none [shopA] = Except.ok l ∧
      (∀ r ∈ l, (3 : ℚ) ≤ jsOrQ none 10) ∧
      l.Pairwise (fun a b => a.distance ≤ b.distance) ∧
      nearbyShops (fun _ _ => 3) (some 1) (some 2) none [shopA] =
        nearbyShops (fun _ _ => 3) (some 1) (some 2) (some 10) [shopA] :=
  C3_nearby_radius_sorted_default (fun _ _ => 3) 1 2 none [shopA]
    (by norm_num) (by norm_num)

/-- The constant 12 km distance function of the shop-C scenario. -/
def dTwelve : Coord → Coord → ℚ := fun _ _ => 12

/-- Shop C of the spec scenario: delivery radius 10 km, active and
approved. -/
def shopC : Shop :=
  { sid := 3, location := { lat := 9, lon := 9 }, deliveryRadius := 10,
    isActive := true, isApproved := true }

/-- C4: the nearby route stores `withinDeliveryRadius` as the comparison of
the unrounded local distance against the shop's own radius and never filters
on it — admission is only the search radius; concretely, shop C at 12 km with
delivery radius 10 is returned by nearby with search radius 15 carrying
`withinDeliveryRadius = false`, and the deliverable route excludes it. -/
theorem C4_within_flag_informational :
    (∀ (d : Coord → Coord → ℚ) (lat lon : ℚ) (md : Option ℚ) (shops : List Shop),
      lat ≠ 0 → lon ≠ 0 →
      ∃ l, nearbyShops d (some lat) (some lon) md shops = Except.ok l ∧
        (∀ r ∈ l, r.withinDeliveryRadius =
          decide (d ⟨lat, lon⟩ r.shop.location ≤ r.shop.deliveryRadius)) ∧
        (∀ s ∈ shops, activeApproved s = true →
          d ⟨lat, lon⟩ s.location ≤ jsOrQ md 10 → ∃ r ∈ l, r.shop = s)) ∧
    (nearbyShops dTwelve (some 1) (some 1) (some 15) [shopC] =
      Except.ok [{ shop := shopC, distance := 12, withinDeliveryRadius := false }] ∧
     deliverableShops dTwelve (some 1) (some 1) [shopC] = Except.ok []) := by
  constructor
  · intro d lat lon md shops hlat hlon
    have htl : truthyQ (some lat) = true := by simpa [truthyQ] using hlat
    have hto : truthyQ (some lon) = true := by simpa [truthyQ] using hlon
    refine ⟨nearbyResults d ⟨lat, lon⟩ (jsOrQ md 10) shops, ?_, ?_, ?_⟩
    · unfold nearbyShops
      rw [htl, hto]
      simp
    · intro r hr
      unfold nearbyResults at hr
      rw [List.mem_map] at hr
      obtain ⟨s, _, he⟩ := hr
      subst he
      rfl
    · intro s hs ha hd
      refine ⟨NearbyResult.mk s (round2 (d ⟨lat, lon⟩ s.location))
        (decide (d ⟨lat, lon⟩ s.location ≤ s.deliveryRadius)), ?_, rfl⟩
      unfold nearbyResults
      rw [List.mem_map]
      exact ⟨s, mem_findNear.mpr ⟨hs, ha, hd⟩, rfl⟩
  · constructor
    · have h12 : round2 12 = 12 := by norm_num [round2, round_eq]
      simp +decide [nearbyShops, nearbyResults, findNear, truthyQ, jsOrQ, activeApproved,
        dTwelve, shopC, List.mergeSort_singleton, h12]
    · simp +decide [deliverableShops, deliverablePipeline, geoNearAll, truthyQ,
        activeApproved, dTwelve, shopC, List.mergeSort_singleton, List.mergeSort_nil]

/-- C4 witness: the universally quantified half of the theorem applied to the
shop-C scenario inputs. -/
theorem C4_witness :
    ∃ l, nearbyShops dTwelve (some 1) (some 1) (some 15) [shopC] = Except.ok l ∧
      (∀ r ∈ l, r.withinDeliveryRadius =
        decide (dTwelve ⟨1, 1⟩ r.shop.location ≤ r.shop.deliveryRadius)) ∧
      (∀ s ∈ [shopC], activeApproved s = true →
        dTwelve ⟨1, 1⟩ s.location ≤ jsOrQ (some 15) 10 → ∃ r ∈ l, r.shop = s) :=
  C4_within_flag_informational.1 dTwelve 1 1 (some 15) [shopC]
    (by norm_num) (by norm_num)

/-- The shop of the C10 rounding scenario: delivery radius 5 km. -/
def shopF : Shop :=
  { sid := 7, location := { lat := 10, lon := 20 }, deliveryRadius := 5,
    isActive := true, isApproved := true }

/-- C10: with a true distance of 5.004 km and delivery radius 5 km, the
nearby route reports the rounded distance 5.00 — which does not exceed the
delivery radius — while `withinDeliveryRadius`, computed from the
full-precision distance, is false. -/
theorem C10_rounded_distance_vs_flag :
    nearbyShops (fun _ _ => 5004 / 1000) (some 1) (some 1) (some 10) [shopF] =
      Except.ok [{ shop := shopF, distance := 5, withinDeliveryRadius := false }] ∧
    round2 (5004 / 1000) = 5 ∧ (5 : ℚ) ≤ shopF.deliveryRadius ∧
    ¬(5004 / 1000 ≤ (5 : ℚ)) := by
  have h5 : round2 (5004 / 1000) = 5 := by norm_num [round2, round_eq]
  have hd1 : decide ((5004 : ℚ) / 1000 ≤ 10) = true := by norm_num
  have hd2 : decide ((5004 : ℚ) / 1000 ≤ 5) = false := by norm_num
  refine ⟨?_, h5, by norm_num [shopF], by norm_num⟩
  simp +decide [nearbyShops, nearbyResults, findNear, truthyQ, jsOrQ, activeApproved,
    shopF, List.mergeSort_singleton, h5, hd1, hd2]

theorem arctan_nonneg_of_nonneg {x : ℝ} (h : 0 ≤ x) : 0 ≤ Real.arctan x := by
  have hm := Real.arctan_strictMono.monotone h
  simpa [Real.arctan_zero] using hm

theorem atan2_nonneg {y x : ℝ} (hy : 0 ≤ y) : 0 ≤ atan2 y x := by
  unfold atan2
  split_ifs with h1 h2 h3 h4
  · exact arctan_nonneg_of_nonneg (div_nonneg hy h1.le)
  · linarith [Real.pi_pos]
  · exact absurd h4 (not_lt.mpr hy)
  · exact le_refl 0
  · linarith [Real.neg_pi_div_two_lt_arctan (y / x), Real.pi_pos]

theorem calculateDistance_nonneg (lat1 lon1 lat2 lon2 : ℝ) :
    0 ≤ calculateDistance lat1 lon1 lat2 lon2 := by
  simp only [calculateDistance]
  exact mul_nonneg (by norm_num)
    (mul_nonneg (by norm_num) (atan2_nonneg (Real.sqrt_nonneg _)))

theorem calculateDistance_self (lat lon : ℝ) :
    calculateDistance lat lon lat lon = 0 := by
  simp [calculateDistance, toRad, atan2, Real.sqrt_one]

theorem calculateDistance_symm (lat1 lon1 lat2 lon2 : ℝ) :
    calculateDistance lat1 lon1 lat2 lon2 = calculateDistance lat2 lon2 lat1 lon1 := by
  simp only [calculateDistance, toRad]
  rw [show lat1 - lat2 = -(lat2 - lat1) from by ring,
    show lon1 - lon2 = -(lon2 - lon1) from by ring]
  simp only [neg_mul, neg_div, Real.sin_neg, neg_mul_neg]
  ring_nf

/-- C6: for valid coordinate pairs the Haversine distance is symmetric,
non-negative, and exactly zero from a point to itself (over the reals,
the floating tolerance of the claim degenerates to equality). -/
theorem C6_distance_symm_nonneg_zero (lat1 lon1 lat2 lon2 : ℝ)
    (h1 : validCoordR lat1 lon1) (h2 : validCoordR lat2 lon2) :
    calculateDistance lat1 lon1 lat2 lon2 = calculateDistance lat2 lon2 lat1 lon1 ∧
    0 ≤ calculateDistance lat1 lon1 lat2 lon2 ∧
    calculateDistance lat1 lon1 lat1 lon1 = 0 :=
  ⟨calculateDistance_symm lat1 lon1 lat2 lon2,
   calculateDistance_nonneg lat1 lon1 lat2 lon2,
   calculateDistance_self lat1 lon1⟩

/-- C6 witness: the theorem applied at the valid coordinates (10, 20) and
(-30, 40). -/
theorem C6_witness :
    calculateDistance 10 20 (-30) 40 = calculateDistance (-30) 40 10 20 ∧
    0 ≤ calculateDistance 10 20 (-30) 40 ∧
    calculateDistance 10 20 10 20 = 0 :=
  C6_distance_symm_nonneg_zero 10 20 (-30) 40
    ⟨by norm_num, by norm_num, by norm_num, by norm_num⟩
    ⟨by norm_num, by norm_num, by norm_num, by norm_num⟩

/-- C7: the summary join is all-or-nothing — when any of the eight concurrent
sub-queries fails the whole operation fails, carrying the error of a failed
sub-query and returning no data object at all; and for a shop with no orders
it succeeds with every order count equal to 0 and today's revenue 0. -/
theorem C7_summary_all_or_nothing_zero_orders :
    (∀ (shop : ShopDoc) (q1 q2 q3 q4 q5 q6 : Except String ℕ)
        (q7 : Except String (List ℚ)) (q8 : Except String ℕ),
      (q1.isOk && q2.isOk && q3.isOk && q4.isOk && q5.isOk && q6.isOk &&
        q7.isOk && q8.isOk) = false →
      ∃ e, shopSummaryRun shop q1 q2 q3 q4 q5 q6 q7 q8 = Except.error e ∧
        (q1 = Except.error e ∨ q2 = Except.error e ∨ q3 = Except.error e ∨
         q4 = Except.error e ∨ q5 = Except.error e ∨ q6 = Except.error e ∨
         q7 = Except.error e ∨ q8 = Except.error e)) ∧
    (∀ (shop : ShopDoc) (products : List Product) (orders : List Order) (todayStart : ℕ),
      orders.filter (fun o => o.orderShopId == shop.sid) = [] →
      ∃ dta, shopSummary shop products orders todayStart = Except.ok dta ∧
        dta.ordersTotal = 0 ∧ dta.ordersPending = 0 ∧ dta.ordersAccepted = 0 ∧
        dta.ordersCompleted = 0 ∧ dta.todayOrders = 0 ∧ dta.revenueToday = 0) := by
  constructor
  · intro shop q1 q2 q3 q4 q5 q6 q7 q8 hfail
    rcases q1 with e1 | v1
    · exact ⟨e1, rfl, Or.inl rfl⟩
    rcases q2 with e2 | v2
    · exact ⟨e2, rfl, Or.inr (Or.inl rfl)⟩
    rcases q3 with e3 | v3
    · exact ⟨e3, rfl, Or.inr (Or.inr (Or.inl rfl))⟩
    rcases q4 with e4 | v4
    · exact ⟨e4, rfl, Or.inr (Or.inr (Or.inr (Or.inl rfl)))⟩
    rcases q5 with e5 | v5
    · exact ⟨e5, rfl, Or.inr (Or.inr (Or.inr (Or.inr (Or.inl rfl))))⟩
    rcases q6 with e6 | v6
    · exact ⟨e6, rfl, Or.inr (Or.inr (Or.inr (Or.inr (Or.inr (Or.inl rfl)))))⟩
    rcases q7 with e7 | v7
    · exact ⟨e7, rfl, Or.inr (Or.inr (Or.inr (Or.inr (Or.inr (Or.inr (Or.inl rfl))))))⟩
    rcases q8 with e8 | v8
    · exact ⟨e8, rfl,
        Or.inr (Or.inr (Or.inr (Or.inr (Or.inr (Or.inr (Or.inr rfl))))))⟩
    · exact absurd hfail (by simp [Except.isOk, Except.toBool])
  · intro shop products orders t h0
    have h2 : orders.filter (fun o => o.orderShopId == shop.sid && o.status == "Pending") = [] := by
      simpa using filter_and_eq_nil orders (fun o => o.orderShopId == shop.sid)
        (fun o => o.status == "Pending") h0
    have h3 : orders.filter (fun o => o.orderShopId == shop.sid && o.status == "Accepted") = [] := by
      simpa using filter_and_eq_nil orders (fun o => o.orderShopId == shop.sid)
        (fun o => o.status == "Accepted") h0
    have h4 : orders.filter (fun o => o.orderShopId == shop.sid && o.status == "Completed") = [] := by
      simpa using filter_and_eq_nil orders (fun o => o.orderShopId == shop.sid)
        (fun o => o.status == "Completed") h0
    have h5 : orders.filter (fun o => o.orderShopId == shop.sid &&
        (o.status == "Completed" && decide (t ≤ o.createdAt))) = [] := by
      simpa using filter_and_eq_nil orders (fun o => o.orderShopId == shop.sid)
        (fun o => o.status == "Completed" && decide (t ≤ o.createdAt)) h0
    have h6 : orders.filter (fun o => o.orderShopId == shop.sid &&
        decide (t ≤ o.createdAt)) = [] := by
      simpa using filter_and_eq_nil orders (fun o => o.orderShopId == shop.sid)
        (fun o => decide (t ≤ o.createdAt)) h0
    refine ⟨{ productsTotal := (products.filter fun p => p.productShopId == shop.sid).length
              productsAvailable :=
                (products.filter fun p => p.productShopId == shop.sid && p.isAvailable).length
              productsUnavailable :=
                ((products.filter fun p => p.productShopId == shop.sid).length : ℤ) -
                ((products.filter fun p => p.productShopId == shop.sid && p.isAvailable).length : ℤ)
              ordersTotal := 0
              ordersPending := 0
              ordersAccepted := 0
              ordersCompleted := 0
              revenueTotal := jsOrQ shop.totalRevenue 0
              revenueToday := 0
              todayOrders := 0 }, ?_, rfl, rfl, rfl, rfl, rfl, rfl⟩
    unfold shopSummary qProductsTotal qProductsAvailable qOrdersTotal qOrdersStatus
      qTodayRevenue qTodayOrders
    rw [h0, h2, h3, h4, h5, h6]
    rfl

/-- A concrete shop document used by the C7 witness. -/
def shopW : ShopDoc :=
  { sid := 1, name := "Shop", isOpen := true, isActive := true,
    totalOrders := 0, totalRevenue := none }

/-- C7 witness: the theorem applied with the first sub-query failing, and
with an order store that has no orders for the shop. -/
theorem C7_witness :
    (∃ e, shopSummaryRun shopW (Except.error "boom") (Except.ok 0) (Except.ok 0)
        (Except.ok 0) (Except.ok 0) (Except.ok 0) (Except.ok []) (Except.ok 0) =
          Except.error e ∧
      ((Except.error "boom" : Except String ℕ) = Except.error e ∨
       (Except.ok 0 : Except String ℕ) = Except.error e ∨
       (Except.ok 0 : Except String ℕ) = Except.error e ∨
       (Except.ok 0 : Except String ℕ) = Except.error e ∨
       (Except.ok 0 : Except String ℕ) = Except.error e ∨
       (Except.ok 0 : Except String ℕ) = Except.error e ∨
       (Except.ok [] : Except String (List ℚ)) = Except.error e ∨
       (Except.ok 0 : Except String ℕ) = Except.error e)) ∧
    (∃ dta, shopSummary shopW [] [] 0 = Except.ok dta ∧
      dta.ordersTotal = 0 ∧ dta.ordersPending = 0 ∧ dta.ordersAccepted = 0 ∧
      dta.ordersCompleted = 0 ∧ dta.todayOrders = 0 ∧ dta.revenueToday = 0) :=
  ⟨C7_summary_all_or_nothing_zero_orders.1 shopW (Except.error "boom") (Except.ok 0)
      (Except.ok 0) (Except.ok 0) (Except.ok 0) (Except.ok 0) (Except.ok [])
      (Except.ok 0) rfl,
   C7_summary_all_or_nothing_zero_orders.2 shopW [] [] 0 rfl⟩

theorem mem_statsMatched {sid cutoff : ℕ} {orders : List Order} {o : Order} :
    o ∈ statsMatched sid cutoff orders ↔
      o ∈ orders ∧ o.orderShopId = sid ∧ o.status = "Completed" ∧ cutoff ≤ o.createdAt := by
  unfold statsMatched
  simp [List.mem_filter, and_assoc]

/-- C8: the stats route merges the two aggregates into one payload; the daily
buckets carry strictly increasing day keys; each bucket counts and sums
exactly the matched orders of its day; every matched order — and only
completed orders of this shop inside the trailing window are matched — lands
in a bucket of its day; and the category buckets count this shop's products
per category, with a bucket for every category that occurs. -/
theorem C8_daily_stats_grouping (sid cutoff : ℕ) (orders : List Order)
    (products : List Product) :
    statsHandler sid cutoff orders products =
      { daily := dailyStats sid cutoff orders,
        categories := categoryStats sid products } ∧
    ((dailyStats sid cutoff orders).map DailyBucket.key).Pairwise (· < ·) ∧
    (∀ b ∈ dailyStats sid cutoff orders,
      b.orders = ((statsMatched sid cutoff orders).filter
        fun o => dayKey o.createdAt == b.key).length ∧
      b.revenue = (((statsMatched sid cutoff orders).filter
        fun o => dayKey o.createdAt == b.key).map Order.totalAmount).sum ∧
      ∃ o ∈ statsMatched sid cutoff orders, dayKey o.createdAt = b.key) ∧
    (∀ o ∈ orders, o.orderShopId = sid → o.status = "Completed" →
      cutoff ≤ o.createdAt →
      ∃ b ∈ dailyStats sid cutoff orders, b.key = dayKey o.createdAt) ∧
    (∀ o ∈ statsMatched sid cutoff orders,
      o.orderShopId = sid ∧ o.status = "Completed" ∧ cutoff ≤ o.createdAt) ∧
    (∀ c ∈ categoryStats sid products,
      c.count = ((products.filter fun p => p.productShopId == sid).filter
        fun p => p.category == c.key).length) ∧
    (∀ p ∈ products, p.productShopId = sid →
      ∃ c ∈ categoryStats sid products, c.key = p.category) := by
  refine ⟨rfl, ?_, ?_, ?_, ?_, ?_, ?_⟩
  · unfold dailyStats
    rw [List.pairwise_map, List.pairwise_map]
    have hsorted := pairwise_mergeSort_key (fun n : ℕ => n)
      ((statsMatched sid cutoff orders).map fun o => dayKey o.createdAt).dedup
    have hnodup : ((((statsMatched sid cutoff orders).map
        fun o => dayKey o.createdAt).dedup).mergeSort fun a b => decide (a ≤ b)).Nodup :=
      (List.Perm.nodup_iff (List.mergeSort_perm _ _)).mpr (List.nodup_dedup _)
    exact (hsorted.and hnodup).imp fun h => lt_of_le_of_ne h.1 h.2
  · intro b hb
    unfold dailyStats at hb
    rw [List.mem_map] at hb
    obtain ⟨k, hk, he⟩ := hb
    rw [List.mem_mergeSort, List.mem_dedup, List.mem_map] at hk
    obtain ⟨o, ho, hko⟩ := hk
    subst he
    exact ⟨rfl, rfl, o, ho, hko⟩
  · intro o ho h1 h2 h3
    have hm : o ∈ statsMatched sid cutoff orders := mem_statsMatched.mpr ⟨ho, h1, h2, h3⟩
    have hk : dayKey o.createdAt ∈ (((statsMatched sid cutoff orders).map
        fun x => dayKey x.createdAt).dedup).mergeSort fun a b => decide (a ≤ b) := by
      rw [List.mem_mergeSort, List.mem_dedup, List.mem_map]
      exact ⟨o, hm, rfl⟩
    unfold dailyStats
    exact ⟨_, List.mem_map_of_mem _ hk, rfl⟩
  · intro o ho
    exact (mem_statsMatched.mp ho).2
  · intro c hc
    unfold categoryStats at hc
    rw [List.mem_map] at hc
    obtain ⟨cat, _, he⟩ := hc
    subst he
    rfl
  · intro p hp h1
    have hm : p ∈ products.filter fun q => q.productShopId == sid := by
      rw [List.mem_filter]
      exact ⟨hp, by simpa using h1⟩
    have hk : p.category ∈ ((products.filter fun q => q.productShopId == sid).map
        Product.category).dedup := by
      rw [List.mem_dedup, List.mem_map]
      exact ⟨p, hm, rfl⟩
    unfold categoryStats
    exact ⟨_, List.mem_map_of_mem _ hk, rfl⟩

/-- A concrete completed order used by the C8 witness. -/
def ordW : Order :=
  { orderShopId := 1, status := "Completed", createdAt := 100, totalAmount := 50 }

/-- C8 witness: the theorem applied to one completed in-window order, showing
it lands in a daily bucket of its day key. -/
theorem C8_witness :
    ∃ b ∈ dailyStats 1 0 [ordW], b.key = dayKey ordW.createdAt :=
  (C8_daily_stats_grouping 1 0 [ordW] []).2.2.2.1 ordW (by simp) rfl rfl (by decide)

end InstantPick
